import Mathlib

/-!
# Verification of the arrow-cast type-casting kernel

This file is a shallow embedding of `src/arrow-cast/src/cast.rs`:
the legality oracle `can_cast_types`, the `cast_with_options` dispatcher's
static accept/reject behaviour, and the per-element cast kernels that the
claims under scrutiny talk about (numeric casts, decimal rescaling,
temporal scaling, dictionary re-keying, string parsing kernels).

Machine integers are modelled as `Int`/`Nat` with explicit range checks
where the source performs checked arithmetic.  Fallible code returns
`Except ArrowError`.  Recursive type-walks use an explicit fuel argument
bounded by the nesting depth of the types involved, so that every
definition is kernel-computable; the fuel strictly decreases on each
recursive call into a child type, and the initial fuel is the sum of the
nesting depths of the two arguments, hence the `fuel = 0` branch is
unreachable for the actual entry points.
-/

set_option maxHeartbeats 4000000
set_option maxRecDepth 16384

namespace ArrowCast

/-- `arrow_schema::TimeUnit`. -/
inductive TimeUnit
  | second
  | millisecond
  | microsecond
  | nanosecond
  deriving DecidableEq, Repr, Fintype

/-- `arrow_schema::IntervalUnit`. -/
inductive IntervalUnit
  | yearMonth
  | dayTime
  | monthDayNano
  deriving DecidableEq, Repr, Fintype

/-- `arrow_schema::DataType`, the closed sum of logical types that
`can_cast_types` and `cast_with_options` match on.

Abstractions relative to the Rust enum (each irrelevant to every arm of
the two functions modelled here):
* the timezone of `Timestamp` is reduced to presence (`tz = true` for
  `Some(..)`, `false` for `None`) — the functions only ever match on
  `None` vs `_`;
* `List`/`LargeList`/`FixedSizeList` keep only the child data type
  (the functions compare and recurse on `Field::data_type()` only);
* `Struct`, `Map` and the remaining variants (`Union`, …) carry no
  parameters — both functions treat any two distinct such types through
  catch-all arms, and `union` stands for every variant not named in any
  arm of the source. -/
inductive DataType
  | null
  | boolean
  | int8
  | int16
  | int32
  | int64
  | uint8
  | uint16
  | uint32
  | uint64
  | float16
  | float32
  | float64
  | timestamp (unit : TimeUnit) (tz : Bool)
  | date32
  | date64
  | time32 (unit : TimeUnit)
  | time64 (unit : TimeUnit)
  | duration (unit : TimeUnit)
  | interval (unit : IntervalUnit)
  | binary
  | fixedSizeBinary (byteWidth : Int)
  | largeBinary
  | utf8
  | largeUtf8
  | list (child : DataType)
  | fixedSizeList (child : DataType) (len : Int)
  | largeList (child : DataType)
  | struct
  | union
  | dictionary (key : DataType) (value : DataType)
  | decimal128 (precision : Nat) (scale : Int)
  | decimal256 (precision : Nat) (scale : Int)
  | map
  deriving DecidableEq, Repr

namespace DataType

/-- Modelled from the spec: the numeric types of the data model (§3) —
the eight integer widths, the three float widths and the two decimals.
(`arrow_schema::DataType::is_numeric`, a collaborator not under `src/`.) -/
def isNumeric : DataType → Bool
  | uint8 | uint16 | uint32 | uint64
  | int8 | int16 | int32 | int64
  | float16 | float32 | float64
  | decimal128 _ _ | decimal256 _ _ => true
  | _ => false

/-- Modelled from the spec: the temporal types of the data model (§3, §4.5).
(`arrow_schema::DataType::is_temporal`, a collaborator not under `src/`.) -/
def isTemporal : DataType → Bool
  | date32 | date64 | timestamp _ _ | time32 _ | time64 _
  | duration _ | interval _ => true
  | _ => false

/-- Modelled from the spec: a primitive type is a numeric or temporal type
(§3).  (`arrow_schema::DataType::is_primitive`, not under `src/`.) -/
def isPrimitive (t : DataType) : Bool :=
  t.isNumeric || t.isTemporal

/-- Nesting depth of a type: how often lists/dictionaries are nested.
Used only to size the fuel of the recursive type-walks below. -/
def tdepth : DataType → Nat
  | dictionary k v => 1 + max (tdepth k) (tdepth v)
  | list c => 1 + tdepth c
  | largeList c => 1 + tdepth c
  | fixedSizeList c _ => 1 + tdepth c
  | _ => 1

end DataType

open DataType

/-- The eight integer types accepted as dictionary key types by the
dispatcher (`cast_with_options`, the `Dictionary(index_type, _)` and
`(_, Dictionary(..))` arms match `**index_type` against exactly these). -/
def isDictIndex : DataType → Bool
  | .int8 | .int16 | .int32 | .int64
  | .uint8 | .uint16 | .uint32 | .uint64 => true
  | _ => false

/-- `can_cast_types` (cast.rs lines 70–310), with fuel for the recursion
into dictionary value types and list child types.  Arm order mirrors the
source's match exactly; the source's single many-pattern arms for decimal
legality are split into several Lean arms covering the same pattern sets. -/
def canCastAux : Nat → DataType → DataType → Bool
  | 0, _, _ => false
  | fuel + 1, a, b =>
    if a = b then true
    else
      match a, b with
      | .null, .boolean | .null, .int8 | .null, .uint8 | .null, .int16
      | .null, .uint16 | .null, .int32 | .null, .uint32 | .null, .float32
      | .null, .date32 | .null, .time32 _ | .null, .int64 | .null, .uint64
      | .null, .float64 | .null, .date64 | .null, .timestamp _ _
      | .null, .time64 _ | .null, .duration _ | .null, .interval _
      | .null, .fixedSizeBinary _ | .null, .binary | .null, .utf8
      | .null, .largeBinary | .null, .largeUtf8 | .null, .list _
      | .null, .largeList _ | .null, .fixedSizeList _ _ | .null, .struct
      | .null, .map | .null, .dictionary _ _ => true
      | .dictionary _ fv, .dictionary _ tv => canCastAux fuel fv tv
      | .dictionary _ v, _ => canCastAux fuel v b
      | _, .dictionary _ v => canCastAux fuel a v
      | .largeList c1, .largeList c2 => canCastAux fuel c1 c2
      | .list c1, .list c2 => canCastAux fuel c1 c2
      | .list c1, .largeList c2 => decide (c1 = c2)
      | .largeList c1, .list c2 => decide (c1 = c2)
      | .list c, .utf8 | .list c, .largeUtf8
      | .largeList c, .utf8 | .largeList c, .largeUtf8 => canCastAux fuel c b
      | .list _, _ => false
      | _, .list t => canCastAux fuel a t
      | _, .largeList t => canCastAux fuel a t
      | .decimal128 _ _, .decimal128 _ _ => true
      | .decimal256 _ _, .decimal256 _ _ => true
      | .decimal128 _ _, .decimal256 _ _ => true
      | .decimal256 _ _, .decimal128 _ _ => true
      | .uint8, .decimal128 _ _ | .uint16, .decimal128 _ _
      | .uint32, .decimal128 _ _ | .uint64, .decimal128 _ _
      | .uint8, .decimal256 _ _ | .uint16, .decimal256 _ _
      | .uint32, .decimal256 _ _ | .uint64, .decimal256 _ _
      | .null, .decimal128 _ _ | .int8, .decimal128 _ _
      | .int16, .decimal128 _ _ | .int32, .decimal128 _ _
      | .int64, .decimal128 _ _ | .float32, .decimal128 _ _
      | .float64, .decimal128 _ _
      | .null, .decimal256 _ _ | .int8, .decimal256 _ _
      | .int16, .decimal256 _ _ | .int32, .decimal256 _ _
      | .int64, .decimal256 _ _ | .float32, .decimal256 _ _
      | .float64, .decimal256 _ _
      | .decimal128 _ _, .uint8 | .decimal128 _ _, .uint16
      | .decimal128 _ _, .uint32 | .decimal128 _ _, .uint64
      | .decimal256 _ _, .uint8 | .decimal256 _ _, .uint16
      | .decimal256 _ _, .uint32 | .decimal256 _ _, .uint64
      | .decimal128 _ _, .null | .decimal128 _ _, .int8
      | .decimal128 _ _, .int16 | .decimal128 _ _, .int32
      | .decimal128 _ _, .int64 | .decimal128 _ _, .float32
      | .decimal128 _ _, .float64
      | .decimal256 _ _, .null | .decimal256 _ _, .int8
      | .decimal256 _ _, .int16 | .decimal256 _ _, .int32
      | .decimal256 _ _, .int64 | .decimal256 _ _, .float32
      | .decimal256 _ _, .float64 => true
      | .decimal128 _ _, .utf8 | .decimal128 _ _, .largeUtf8 => true
      | .decimal256 _ _, .utf8 | .decimal256 _ _, .largeUtf8 => true
      | .utf8, .decimal128 _ _ | .largeUtf8, .decimal128 _ _ => true
      | .utf8, .decimal256 _ _ | .largeUtf8, .decimal256 _ _ => true
      | .decimal128 _ _, _ => false
      | _, .decimal128 _ _ => false
      | .decimal256 _ _, _ => false
      | _, .decimal256 _ _ => false
      | .struct, _ => false
      | _, .struct => false
      | _, .boolean => a.isNumeric || a = .utf8 || a = .largeUtf8
      | .boolean, _ => b.isNumeric || b = .utf8 || b = .largeUtf8
      | .binary, .largeBinary | .binary, .utf8 | .binary, .largeUtf8
      | .binary, .fixedSizeBinary _ => true
      | .largeBinary, .binary | .largeBinary, .utf8 | .largeBinary, .largeUtf8
      | .largeBinary, .fixedSizeBinary _ => true
      | .fixedSizeBinary _, .binary | .fixedSizeBinary _, .largeBinary => true
      | .utf8, .binary | .utf8, .largeBinary | .utf8, .largeUtf8
      | .utf8, .date32 | .utf8, .date64
      | .utf8, .time32 .second | .utf8, .time32 .millisecond
      | .utf8, .time64 .microsecond | .utf8, .time64 .nanosecond
      | .utf8, .timestamp .second _ | .utf8, .timestamp .millisecond _
      | .utf8, .timestamp .microsecond _ | .utf8, .timestamp .nanosecond _
      | .utf8, .interval _ => true
      | .utf8, _ => b.isNumeric && !(b = .float16)
      | .largeUtf8, .binary | .largeUtf8, .largeBinary | .largeUtf8, .utf8
      | .largeUtf8, .date32 | .largeUtf8, .date64
      | .largeUtf8, .time32 .second | .largeUtf8, .time32 .millisecond
      | .largeUtf8, .time64 .microsecond | .largeUtf8, .time64 .nanosecond
      | .largeUtf8, .timestamp .second _ | .largeUtf8, .timestamp .millisecond _
      | .largeUtf8, .timestamp .microsecond _ | .largeUtf8, .timestamp .nanosecond _
      | .largeUtf8, .interval _ => true
      | .largeUtf8, _ => b.isNumeric && !(b = .float16)
      | _, .utf8 | _, .largeUtf8 => a.isPrimitive
      | .uint8, .uint16 | .uint8, .uint32 | .uint8, .uint64 | .uint8, .int8
      | .uint8, .int16 | .uint8, .int32 | .uint8, .int64 | .uint8, .float32
      | .uint8, .float64 => true
      | .uint16, .uint8 | .uint16, .uint32 | .uint16, .uint64 | .uint16, .int8
      | .uint16, .int16 | .uint16, .int32 | .uint16, .int64 | .uint16, .float32
      | .uint16, .float64 => true
      | .uint32, .uint8 | .uint32, .uint16 | .uint32, .uint64 | .uint32, .int8
      | .uint32, .int16 | .uint32, .int32 | .uint32, .int64 | .uint32, .float32
      | .uint32, .float64 => true
      | .uint64, .uint8 | .uint64, .uint16 | .uint64, .uint32 | .uint64, .int8
      | .uint64, .int16 | .uint64, .int32 | .uint64, .int64 | .uint64, .float32
      | .uint64, .float64 => true
      | .int8, .uint8 | .int8, .uint16 | .int8, .uint32 | .int8, .uint64
      | .int8, .int16 | .int8, .int32 | .int8, .int64 | .int8, .float32
      | .int8, .float64 => true
      | .int16, .uint8 | .int16, .uint16 | .int16, .uint32 | .int16, .uint64
      | .int16, .int8 | .int16, .int32 | .int16, .int64 | .int16, .float32
      | .int16, .float64 => true
      | .int32, .uint8 | .int32, .uint16 | .int32, .uint32 | .int32, .uint64
      | .int32, .int8 | .int32, .int16 | .int32, .int64 | .int32, .float32
      | .int32, .float64 => true
      | .int64, .uint8 | .int64, .uint16 | .int64, .uint32 | .int64, .uint64
      | .int64, .int8 | .int64, .int16 | .int64, .int32 | .int64, .float32
      | .int64, .float64 => true
      | .float32, .uint8 | .float32, .uint16 | .float32, .uint32
      | .float32, .uint64 | .float32, .int8 | .float32, .int16
      | .float32, .int32 | .float32, .int64 | .float32, .float64 => true
      | .float64, .uint8 | .float64, .uint16 | .float64, .uint32
      | .float64, .uint64 | .float64, .int8 | .float64, .int16
      | .float64, .int32 | .float64, .int64 | .float64, .float32 => true
      | .int32, .date32 | .int32, .date64 | .int32, .time32 _ => true
      | .date32, .int32 | .date32, .int64 => true
      | .time32 _, .int32 => true
      | .int64, .date64 | .int64, .date32 | .int64, .time64 _ => true
      | .date64, .int64 | .date64, .int32 => true
      | .time64 _, .int64 => true
      | .date32, .date64 => true
      | .date64, .date32 => true
      | .time32 .second, .time32 .millisecond => true
      | .time32 .millisecond, .time32 .second => true
      | .time32 _, .time64 _ => true
      | .time64 .microsecond, .time64 .nanosecond => true
      | .time64 .nanosecond, .time64 .microsecond => true
      | .time64 _, .time32 u =>
          match u with
          | .second | .millisecond => true
          | _ => false
      | .timestamp _ _, .int64 => true
      | .int64, .timestamp _ _ => true
      | .date64, .timestamp _ false => true
      | .date32, .timestamp _ false => true
      | .timestamp _ _, .timestamp _ _ | .timestamp _ _, .date32
      | .timestamp _ _, .date64
      | .timestamp _ _, .time32 .second | .timestamp _ _, .time32 .millisecond
      | .timestamp _ _, .time64 .microsecond
      | .timestamp _ _, .time64 .nanosecond => true
      | .int64, .duration _ => true
      | .duration _, .int64 => true
      | .interval u, .int64 =>
          match u with
          | .yearMonth => true
          | .dayTime => true
          | .monthDayNano => false
      | .int32, .interval u =>
          match u with
          | .yearMonth => true
          | .dayTime => false
          | .monthDayNano => false
      | .int64, .interval u =>
          match u with
          | .yearMonth => false
          | .dayTime => true
          | .monthDayNano => false
      | .duration _, .interval .monthDayNano => true
      | .interval .monthDayNano, .duration _ => true
      | _, _ => false

/-- `can_cast_types(from, to)`. -/
def canCastTypes (a b : DataType) : Bool :=
  canCastAux (a.tdepth + b.tdepth) a b

/-- Static accept/reject behaviour of `cast_with_options`
(cast.rs lines 746–2175): `dispatchAux fuel a b = false` exactly when the
dispatcher, fed an array of type `a` and target type `b`, fails with one of
its static type-incompatibility errors regardless of the array's contents
and of the safety flag; `true` when it routes the pair to a kernel.

The error sites counted as static rejections (the Unsupported-Cast family):
the catch-all and per-arm `"Casting from {from} to {to} not supported"`
errors, the dictionary-index errors (`"Casting from dictionary type …"`,
`"Casting from type … to dictionary type …"`,
`"Unsupported type … for dictionary index"`), the dictionary packing error
(`"Unsupported output type for dictionary packing"`), the struct errors
(`"Cannot cast from/to struct …"`), and the list errors
(`"cannot cast list to large-list with different child data"` and
`"Cannot cast list to non-list data types"`).  Per-value failures, the
data-dependent dictionary null-count error, the `FixedSizeBinary` length
overflow, and the Invalid-Parameter guards of `cast_string_to_decimal`
(a distinct error kind per §7 of the spec) are not static rejections and
leave the pair accepted.  Kernels reached through nested `cast_with_options`
calls (list children, dictionary keys/values, composite temporal casts)
contribute their own static accept/reject recursively, mirroring the
source's chained dispatch.  Arm order mirrors the source match. -/
def dispatchAux : Nat → DataType → DataType → Bool
  | 0, _, _ => false
  | fuel + 1, a, b =>
    if a = b then true
    else
      match a, b with
      | .null, .boolean | .null, .int8 | .null, .uint8 | .null, .int16
      | .null, .uint16 | .null, .int32 | .null, .uint32 | .null, .float32
      | .null, .date32 | .null, .time32 _ | .null, .int64 | .null, .uint64
      | .null, .float64 | .null, .date64 | .null, .timestamp _ _
      | .null, .time64 _ | .null, .duration _ | .null, .interval _
      | .null, .fixedSizeBinary _ | .null, .binary | .null, .utf8
      | .null, .largeBinary | .null, .largeUtf8 | .null, .list _
      | .null, .largeList _ | .null, .fixedSizeList _ _ | .null, .struct
      | .null, .map | .null, .dictionary _ _ => true
      | .dictionary k v, _ =>
          (match k with
           | .int8 | .int16 | .int32 | .int64
           | .uint8 | .uint16 | .uint32 | .uint64 =>
             (match b with
              | .dictionary k2 v2 =>
                  dispatchAux fuel k k2 && dispatchAux fuel v v2 && isDictIndex k2
              | _ => dispatchAux fuel v b && dispatchAux fuel k .uint32)
           | _ => false)
      | _, .dictionary k2 v2 =>
          (match k2 with
           | .int8 | .int16 | .int32 | .int64
           | .uint8 | .uint16 | .uint32 | .uint64 =>
             (match v2 with
              | .int8 | .int16 | .int32 | .int64
              | .uint8 | .uint16 | .uint32 | .uint64
              | .decimal128 _ _ | .decimal256 _ _
              | .utf8 | .largeUtf8 | .binary | .largeBinary =>
                  dispatchAux fuel a v2
              | _ => false)
           | _ => false)
      | .list c1, .list c2 => dispatchAux fuel c1 c2
      | .largeList c1, .largeList c2 => dispatchAux fuel c1 c2
      | .list c1, .largeList c2 => decide (c1 = c2)
      | .largeList c1, .list c2 => decide (c1 = c2)
      | .list _, .utf8 | .list _, .largeUtf8
      | .largeList _, .utf8 | .largeList _, .largeUtf8 => true
      | .list _, _ | .largeList _, _ => false
      | _, .list t => dispatchAux fuel a t
      | _, .largeList t => dispatchAux fuel a t
      | .decimal128 _ _, .decimal128 _ _ => true
      | .decimal256 _ _, .decimal256 _ _ => true
      | .decimal128 _ _, .decimal256 _ _ => true
      | .decimal256 _ _, .decimal128 _ _ => true
      | .decimal128 _ _, _ =>
          (match b with
           | .uint8 | .uint16 | .uint32 | .uint64
           | .int8 | .int16 | .int32 | .int64
           | .float32 | .float64 | .utf8 | .largeUtf8 | .null => true
           | _ => false)
      | .decimal256 _ _, _ =>
          (match b with
           | .uint8 | .uint16 | .uint32 | .uint64
           | .int8 | .int16 | .int32 | .int64
           | .float32 | .float64 | .utf8 | .largeUtf8 | .null => true
           | _ => false)
      | _, .decimal128 _ _ =>
          (match a with
           | .uint8 | .uint16 | .uint32 | .uint64
           | .int8 | .int16 | .int32 | .int64
           | .float32 | .float64 | .utf8 | .largeUtf8 | .null => true
           | _ => false)
      | _, .decimal256 _ _ =>
          (match a with
           | .uint8 | .uint16 | .uint32 | .uint64
           | .int8 | .int16 | .int32 | .int64
           | .float32 | .float64 | .utf8 | .largeUtf8 | .null => true
           | _ => false)
      | .struct, _ => false
      | _, .struct => false
      | _, .boolean =>
          (match a with
           | .uint8 | .uint16 | .uint32 | .uint64
           | .int8 | .int16 | .int32 | .int64
           | .float16 | .float32 | .float64 | .utf8 | .largeUtf8 => true
           | _ => false)
      | .boolean, _ =>
          (match b with
           | .uint8 | .uint16 | .uint32 | .uint64
           | .int8 | .int16 | .int32 | .int64
           | .float16 | .float32 | .float64 | .utf8 | .largeUtf8 => true
           | _ => false)
      | .utf8, _ =>
          (match b with
           | .uint8 | .uint16 | .uint32 | .uint64
           | .int8 | .int16 | .int32 | .int64
           | .float32 | .float64 | .date32 | .date64
           | .binary | .largeBinary | .largeUtf8
           | .time32 .second | .time32 .millisecond
           | .time64 .microsecond | .time64 .nanosecond
           | .timestamp .second _ | .timestamp .millisecond _
           | .timestamp .microsecond _ | .timestamp .nanosecond _
           | .interval .yearMonth | .interval .dayTime
           | .interval .monthDayNano => true
           | _ => false)
      | .largeUtf8, _ =>
          (match b with
           | .uint8 | .uint16 | .uint32 | .uint64
           | .int8 | .int16 | .int32 | .int64
           | .float32 | .float64 | .date32 | .date64
           | .utf8 | .binary | .largeBinary
           | .time32 .second | .time32 .millisecond
           | .time64 .microsecond | .time64 .nanosecond
           | .timestamp .second _ | .timestamp .millisecond _
           | .timestamp .microsecond _ | .timestamp .nanosecond _
           | .interval .yearMonth | .interval .dayTime
           | .interval .monthDayNano => true
           | _ => false)
      | .binary, _ =>
          (match b with
           | .utf8 | .largeUtf8 | .largeBinary | .fixedSizeBinary _ => true
           | _ => false)
      | .largeBinary, _ =>
          (match b with
           | .utf8 | .largeUtf8 | .binary | .fixedSizeBinary _ => true
           | _ => false)
      | .fixedSizeBinary _, _ =>
          (match b with
           | .binary | .largeBinary => true
           | _ => false)
      | _, .largeUtf8 => a.isPrimitive
      | _, .utf8 => a.isPrimitive
      | .uint8, .uint16 | .uint8, .uint32 | .uint8, .uint64 | .uint8, .int8
      | .uint8, .int16 | .uint8, .int32 | .uint8, .int64 | .uint8, .float32
      | .uint8, .float64 => true
      | .uint16, .uint8 | .uint16, .uint32 | .uint16, .uint64 | .uint16, .int8
      | .uint16, .int16 | .uint16, .int32 | .uint16, .int64 | .uint16, .float32
      | .uint16, .float64 => true
      | .uint32, .uint8 | .uint32, .uint16 | .uint32, .uint64 | .uint32, .int8
      | .uint32, .int16 | .uint32, .int32 | .uint32, .int64 | .uint32, .float32
      | .uint32, .float64 => true
      | .uint64, .uint8 | .uint64, .uint16 | .uint64, .uint32 | .uint64, .int8
      | .uint64, .int16 | .uint64, .int32 | .uint64, .int64 | .uint64, .float32
      | .uint64, .float64 => true
      | .int8, .uint8 | .int8, .uint16 | .int8, .uint32 | .int8, .uint64
      | .int8, .int16 | .int8, .int32 | .int8, .int64 | .int8, .float32
      | .int8, .float64 => true
      | .int16, .uint8 | .int16, .uint16 | .int16, .uint32 | .int16, .uint64
      | .int16, .int8 | .int16, .int32 | .int16, .int64 | .int16, .float32
      | .int16, .float64 => true
      | .int32, .uint8 | .int32, .uint16 | .int32, .uint32 | .int32, .uint64
      | .int32, .int8 | .int32, .int16 | .int32, .int64 | .int32, .float32
      | .int32, .float64 => true
      | .int64, .uint8 | .int64, .uint16 | .int64, .uint32 | .int64, .uint64
      | .int64, .int8 | .int64, .int16 | .int64, .int32 | .int64, .float32
      | .int64, .float64 => true
      | .float32, .uint8 | .float32, .uint16 | .float32, .uint32
      | .float32, .uint64 | .float32, .int8 | .float32, .int16
      | .float32, .int32 | .float32, .int64 | .float32, .float64 => true
      | .float64, .uint8 | .float64, .uint16 | .float64, .uint32
      | .float64, .uint64 | .float64, .int8 | .float64, .int16
      | .float64, .int32 | .float64, .int64 | .float64, .float32 => true
      | .int32, .date32 => true
      | .int32, .date64 => true
      | .int32, .time32 .second | .int32, .time32 .millisecond => true
      | .date32, .int32 => true
      | .date32, .int64 => true
      | .time32 .second, .int32 | .time32 .millisecond, .int32 => true
      | .int64, .date64 => true
      | .int64, .date32 => true
      | .int64, .time64 .microsecond | .int64, .time64 .nanosecond => true
      | .date64, .int64 => true
      | .date64, .int32 => true
      | .time64 .microsecond, .int64 | .time64 .nanosecond, .int64 => true
      | .date32, .date64 => true
      | .date64, .date32 => true
      | .time32 .second, .time32 .millisecond => true
      | .time32 .second, .time64 .microsecond => true
      | .time32 .second, .time64 .nanosecond => true
      | .time32 .millisecond, .time32 .second => true
      | .time32 .millisecond, .time64 .microsecond => true
      | .time32 .millisecond, .time64 .nanosecond => true
      | .time64 .microsecond, .time32 .second => true
      | .time64 .microsecond, .time32 .millisecond => true
      | .time64 .microsecond, .time64 .nanosecond => true
      | .time64 .nanosecond, .time32 .second => true
      | .time64 .nanosecond, .time32 .millisecond => true
      | .time64 .nanosecond, .time64 .microsecond => true
      | .timestamp .second _, .int64 | .timestamp .millisecond _, .int64
      | .timestamp .microsecond _, .int64 | .timestamp .nanosecond _, .int64 => true
      | .int64, .timestamp _ _ => true
      | .timestamp _ _, .timestamp _ _ => true
      | .timestamp _ _, .date32 => true
      | .timestamp .second _, .date64 | .timestamp .millisecond _, .date64
      | .timestamp .microsecond _, .date64 | .timestamp .nanosecond _, .date64 => true
      | .timestamp .second _, .time64 .microsecond
      | .timestamp .second _, .time64 .nanosecond
      | .timestamp .millisecond _, .time64 .microsecond
      | .timestamp .millisecond _, .time64 .nanosecond
      | .timestamp .microsecond _, .time64 .microsecond
      | .timestamp .microsecond _, .time64 .nanosecond
      | .timestamp .nanosecond _, .time64 .microsecond
      | .timestamp .nanosecond _, .time64 .nanosecond => true
      | .timestamp .second _, .time32 .second
      | .timestamp .second _, .time32 .millisecond
      | .timestamp .millisecond _, .time32 .second
      | .timestamp .millisecond _, .time32 .millisecond
      | .timestamp .microsecond _, .time32 .second
      | .timestamp .microsecond _, .time32 .millisecond
      | .timestamp .nanosecond _, .time32 .second
      | .timestamp .nanosecond _, .time32 .millisecond => true
      | .date64, .timestamp .second false | .date64, .timestamp .millisecond false
      | .date64, .timestamp .microsecond false
      | .date64, .timestamp .nanosecond false => true
      | .date32, .timestamp .second false | .date32, .timestamp .millisecond false
      | .date32, .timestamp .microsecond false
      | .date32, .timestamp .nanosecond false => true
      | .int64, .duration .second | .int64, .duration .millisecond
      | .int64, .duration .microsecond | .int64, .duration .nanosecond => true
      | .duration .second, .int64 | .duration .millisecond, .int64
      | .duration .microsecond, .int64 | .duration .nanosecond, .int64 => true
      | .duration .second, .interval .monthDayNano
      | .duration .millisecond, .interval .monthDayNano
      | .duration .microsecond, .interval .monthDayNano
      | .duration .nanosecond, .interval .monthDayNano => true
      | .interval .monthDayNano, .duration .second
      | .interval .monthDayNano, .duration .millisecond
      | .interval .monthDayNano, .duration .microsecond
      | .interval .monthDayNano, .duration .nanosecond => true
      | .interval .yearMonth, .int64 => true
      | .interval .dayTime, .int64 => true
      | .int32, .interval .yearMonth => true
      | .int64, .interval .dayTime => true
      | _, _ => false

/-- Whether `cast_with_options` accepts the pair `(a, b)` statically
(does not fail with an Unsupported-Cast error independent of the data). -/
def dispatchSupported (a b : DataType) : Bool :=
  dispatchAux (a.tdepth + b.tdepth) a b

/-- A flat (non-nested) type: not a list, fixed-size list or dictionary. -/
def isFlat : DataType → Bool
  | .list _ | .largeList _ | .fixedSizeList _ _ | .dictionary _ _ => false
  | _ => true

/-- The unit parameterisations that denote real Arrow types:
`Time32` carries seconds or milliseconds, `Time64` microseconds or
nanoseconds (the other combinations are expressible in the `DataType`
enum but denote no valid array type). -/
def unitsValid : DataType → Bool
  | .time32 u =>
      match u with
      | .second | .millisecond => true
      | _ => false
  | .time64 u =>
      match u with
      | .microsecond | .nanosecond => true
      | _ => false
  | _ => true

/- ---------------------------------------------------------------- -/
/- Errors, arrays, and the per-element kernels                       -/
/- ---------------------------------------------------------------- -/

/-- The `ArrowError` variants produced by the cast kernels. -/
inductive ArrowError
  | castError (msg : String)
  | invalidArgumentError (msg : String)
  | computeError (msg : String)
  deriving DecidableEq, Repr

/-- Modelled from the spec (§4.5): the fixed scale-factor constants of
`arrow_array::temporal_conversions` (a collaborator crate not under
`src/`): 1 s = 1,000 ms = 1,000,000 µs = 1,000,000,000 ns and
1 day = 86,400 s = 86,400,000 ms. -/
def MILLISECONDS : Int := 1000

/-- Microseconds in a second (spec §4.5). -/
def MICROSECONDS : Int := 1000000

/-- Nanoseconds in a second (spec §4.5). -/
def NANOSECONDS : Int := 1000000000

/-- Seconds in a day (spec §4.5). -/
def SECONDS_IN_DAY : Int := 86400

/-- Milliseconds in a day (spec §4.5). -/
def MILLISECONDS_IN_DAY : Int := 86400000

/-- `i128::MAX`. -/
def I128_MAX : Int := 2 ^ 127 - 1

/-- `i128::MIN`. -/
def I128_MIN : Int := -(2 ^ 127)

/-- `i256::MAX`. -/
def I256_MAX : Int := 2 ^ 255 - 1

/-- `i256::MIN`. -/
def I256_MIN : Int := -(2 ^ 255)

/-- `PrimitiveArray::unary_opt(f)`: apply the checked per-element function
over the non-null slots; a `None` result becomes a null, nulls stay null.
An array is its sequence of optional element values. -/
def unaryOpt (f : α → Option β) (rows : List (Option α)) : List (Option β) :=
  rows.map fun r => r.bind f

/-- `PrimitiveArray::try_unary(f)`: apply the fallible per-element function
over the non-null slots, returning the first failure as the overall error;
nulls stay null. -/
def tryUnary (f : α → Except ArrowError β) :
    List (Option α) → Except ArrowError (List (Option β))
  | [] => .ok []
  | none :: rest =>
      match tryUnary f rest with
      | .ok tl => .ok (none :: tl)
      | .error e => .error e
  | some x :: rest =>
      match f x with
      | .error e => .error e
      | .ok y =>
          match tryUnary f rest with
          | .ok tl => .ok (some y :: tl)
          | .error e => .error e

/-- The first non-null element on which the checked conversion `f` fails
(the element `try_unary` reports). -/
def firstFailing (f : α → Option β) (rows : List (Option α)) : Option α :=
  (rows.filterMap id).find? fun x => (f x).isNone

/-- `f(x).ok_or_else(|| err(x))`: lift a checked conversion into the
fallible per-element function handed to `try_unary`. -/
def checkedToExcept (f : α → Option β) (err : α → ArrowError) (x : α) :
    Except ArrowError β :=
  match f x with
  | some y => .ok y
  | none => .error (err x)

/-- Number of null slots (`Array::null_count`). -/
def nullCount (rows : List (Option α)) : Nat :=
  rows.countP fun r => r.isNone

/- ----- numeric kernels (cast.rs lines 2394–2456) ----- -/

/-- `try_numeric_cast` (lines 2419–2437): per-element checked cast `conv`
(`num::cast::cast::<T, R>`); the first failing value aborts with an error
naming the value and the target type's display name `toName`. -/
def tryNumericCast (conv : Int → Option Int) (toName : String)
    (rows : List (Option Int)) : Except ArrowError (List (Option Int)) :=
  tryUnary
    (checkedToExcept conv fun v =>
      .castError ("Can't cast value " ++ toString v ++ " to type " ++ toName))
    rows

/-- `numeric_cast` (lines 2441–2450): `unary_opt` over the checked cast. -/
def numericCast (conv : Int → Option Int) (rows : List (Option Int)) :
    List (Option Int) :=
  unaryOpt conv rows

/-- `cast_numeric_arrays` (lines 2394–2415): safe mode nullifies failed
conversions, unsafe mode errors on the first one.  The per-element checked
conversion of the `num` crate (external) is a parameter; the integer
instantiations are range checks, see `numCastInt32ToUInt8`. -/
def castNumericArrays (safe : Bool) (conv : Int → Option Int)
    (toName : String) (rows : List (Option Int)) :
    Except ArrowError (List (Option Int)) :=
  if safe then .ok (numericCast conv rows)
  else tryNumericCast conv toName rows

/-- Modelled from the spec (§4.4 "checked numeric cast"): the external
`num::cast::cast::<i32, u8>` conversion succeeds exactly on the values
representable in the target type `u8`. -/
def numCastInt32ToUInt8 (v : Int) : Option Int :=
  if 0 ≤ v ∧ v ≤ 255 then some v else none

/-- Modelled from the spec (§4.4): checked integer cast into the
range `[lo, hi]` of an arbitrary integer target type. -/
def intRangeCast (lo hi : Int) (v : Int) : Option Int :=
  if lo ≤ v ∧ v ≤ hi then some v else none

/- ----- decimal kernels (cast.rs lines 2220–2392) ----- -/

/-- `cast_decimal_to_decimal_error` (lines 2225–2244). -/
def decimalOverflowError (outTag : String) (outputPrecision : Nat)
    (outputScale : Int) (x : Int) : ArrowError :=
  .castError
    ("Cannot cast to " ++ outTag ++ "(" ++ toString outputPrecision
      ++ ", " ++ toString outputScale ++ "). Overflowing on " ++ toString x)

/-- `i128::pow_checked(10, k)` /  `i256::pow_checked(10, k)`:
`10^k`, or `None` when the power exceeds the native width's maximum. -/
def powCheckedTen (k : Nat) (nativeMax : Int) : Option Int :=
  if 10 ^ k ≤ nativeMax then some (10 ^ k) else none

/-- The rounding closure of `convert_to_smaller_scale_decimal`
(lines 2267–2278): truncated quotient and remainder of `x` by `div`,
bumped by ±1 half-away-from-zero.  The source uses wrapping operations;
they never wrap because `div ≥ 10` (the source's own comment), so the
arithmetic is modelled exactly on ℤ.  `Int.tdiv`/`Int.tmod` are Rust's
truncating `/` and `%`. -/
def roundDivHalfAway (div x : Int) : Int :=
  let d := x.tdiv div
  let r := x.tmod div
  let half := div.tdiv 2
  if 0 ≤ x then (if half ≤ r then d + 1 else d)
  else (if r ≤ -half then d - 1 else d)

/-- `DecimalCast::from_decimal` into `i128` from a 256-bit source:
`to_i128`, a range check. -/
def fromDecimal256To128 (x : Int) : Option Int :=
  if I128_MIN ≤ x ∧ x ≤ I128_MAX then some x else none

/-- `convert_to_smaller_scale_decimal` (lines 2246–2285).  `fromDec` is
`O::Native::from_decimal` (the identity `some` for a same-width cast, a
range check across widths); `nativeMax` bounds the `pow_checked` in the
input width.  Safe mode: `unary_opt`; unsafe mode: `try_unary` with
`cast_decimal_to_decimal_error`. -/
def convertToSmallerScaleDecimal (fromDec : Int → Option Int)
    (outTag : String) (inputScale : Int) (outputPrecision : Nat)
    (outputScale : Int) (safe : Bool) (nativeMax : Int)
    (rows : List (Option Int)) : Except ArrowError (List (Option Int)) :=
  match powCheckedTen (inputScale - outputScale).toNat nativeMax with
  | none => .error (.computeError "Overflow happened on: 10.pow")
  | some div =>
      let f := fun x => fromDec (roundDivHalfAway div x)
      if safe then .ok (unaryOpt f rows)
      else
        tryUnary
          (checkedToExcept f
            (decimalOverflowError outTag outputPrecision outputScale))
          rows

/-- `x.mul_checked(m)` in a native width with range `[outMin, outMax]`. -/
def mulChecked (outMin outMax m y : Int) : Option Int :=
  if outMin ≤ y * m ∧ y * m ≤ outMax then some (y * m) else none

/-- `convert_to_bigger_or_equal_scale_decimal` (lines 2287–2312): convert
to the output width, multiply by `10^(output_scale - input_scale)` with
checked arithmetic; safe nullifies, unsafe errors with the value named. -/
def convertToBiggerOrEqualScaleDecimal (fromDec : Int → Option Int)
    (outTag : String) (inputScale : Int) (outputPrecision : Nat)
    (outputScale : Int) (safe : Bool) (outMin outMax : Int)
    (rows : List (Option Int)) : Except ArrowError (List (Option Int)) :=
  match powCheckedTen (outputScale - inputScale).toNat outMax with
  | none => .error (.computeError "Overflow happened on: 10.pow")
  | some mul =>
      let f := fun x => (fromDec x).bind (mulChecked outMin outMax mul)
      if safe then .ok (unaryOpt f rows)
      else
        tryUnary
          (checkedToExcept f
            (decimalOverflowError outTag outputPrecision outputScale))
          rows

/-- Modelled from the spec (§3): `with_precision_and_scale` (arrow-array,
not under `src/`) validates the decimal's construction parameters —
`scale ≤ precision ≤ TYPE_MAX_PRECISION` — and relabels the array; it does
not inspect the stored values. -/
def withPrecisionAndScale (maxPrecision : Nat) (precision : Nat)
    (scale : Int) (rows : List (Option Int)) :
    Except ArrowError (List (Option Int)) :=
  if precision ≤ maxPrecision ∧ scale ≤ (precision : Int) then .ok rows
  else .error (.invalidArgumentError "invalid precision or scale for decimal")

/-- `cast_decimal_to_decimal_same_type::<Decimal128Type>`
(lines 2314–2353): equal scales copy the values unchanged, a larger input
scale divides with rounding, a smaller one multiplies checked; then the
result is relabelled with the output precision and scale. -/
def castDecimalToDecimalSameType128 (inputScale : Int)
    (outputPrecision : Nat) (outputScale : Int) (safe : Bool)
    (rows : List (Option Int)) : Except ArrowError (List (Option Int)) :=
  let converted : Except ArrowError (List (Option Int)) :=
    match compare inputScale outputScale with
    | .eq => .ok rows
    | .gt =>
        convertToSmallerScaleDecimal some "Decimal128" inputScale
          outputPrecision outputScale safe I128_MAX rows
    | .lt =>
        convertToBiggerOrEqualScaleDecimal some "Decimal128" inputScale
          outputPrecision outputScale safe I128_MIN I128_MAX rows
  match converted with
  | .error e => .error e
  | .ok rs => withPrecisionAndScale 38 outputPrecision outputScale rs

/-- Modelled from the spec (§3, precision = total significant digits):
`validate_decimal_precision` (arrow-array, not under `src/`) accepts a
value for precision `p` iff `|v| ≤ 10^p − 1`. -/
def fitsDecimalPrecision (p : Nat) (v : Int) : Bool :=
  -(10 ^ p - 1) ≤ v ∧ v ≤ 10 ^ p - 1

/- ----- temporal kernels (cast.rs lines 1736–1868, 2179–2185) ----- -/

/-- `time_unit_multiple` (lines 2179–2185). -/
def timeUnitMultiple : TimeUnit → Int
  | .second => 1
  | .millisecond => MILLISECONDS
  | .microsecond => MICROSECONDS
  | .nanosecond => NANOSECONDS

/-- The per-element function of the `(Time32(Millisecond),
Time64(Nanosecond))` arm (lines 1768–1773):
`|x| x as i64 * (MICROSECONDS / NANOSECONDS)` — the multiplier is the
Rust constant integer quotient `1_000_000 / 1_000_000_000`. -/
def castTime32MsToTime64NsElem (x : Int) : Int :=
  x * (MICROSECONDS.tdiv NANOSECONDS)

/-- The whole `(Time32(Millisecond), Time64(Nanosecond))` arm: `unary`
maps the element function over non-null slots, nulls stay null. -/
def castTime32MsToTime64Ns (rows : List (Option Int)) : List (Option Int) :=
  rows.map (Option.map castTime32MsToTime64NsElem)

/-- The `(Date32, Date64)` arm (lines 1736–1739):
`|x| x as i64 * MILLISECONDS_IN_DAY`. -/
def castDate32ToDate64Elem (x : Int) : Int :=
  x * MILLISECONDS_IN_DAY

/-- The `(Date32, Date64)` arm over an array. -/
def castDate32ToDate64 (rows : List (Option Int)) : List (Option Int) :=
  rows.map (Option.map castDate32ToDate64Elem)

/-- The `(Timestamp(from_unit, _), Date32)` arm (lines 1852–1868):
`from_size = time_unit_multiple(from_unit) * SECONDS_IN_DAY`, each
non-null value is divided by it (truncating Rust `i64` division, in range
for every day count representable in the output), nulls append null. -/
def castTimestampToDate32 (fromUnit : TimeUnit) (rows : List (Option Int)) :
    List (Option Int) :=
  let fromSize := timeUnitMultiple fromUnit * SECONDS_IN_DAY
  rows.map (Option.map fun x => x.tdiv fromSize)

/- ----- the dispatcher's identity tier (cast.rs lines 752–756) ----- -/

/-- An array: its logical type and its element values (integer-backed
types are the ones modelled with kernels here). -/
structure MArray where
  dtype : DataType
  rows : List (Option Int)
  deriving DecidableEq, Repr

/-- The tiers of `cast_with_options` (lines 746–757 and routed arms),
restricted to the integer-backed kernels embedded above: tier 0 returns a
shallow clone (`make_array(array.to_data())`: same type, length, validity
and values) before any routing; the routed tier dispatches the embedded
arms and rejects every other pair. -/
def castWithOptionsM (arr : MArray) (toType : DataType) (safe : Bool) :
    Except ArrowError MArray :=
  if arr.dtype = toType then .ok ⟨arr.dtype, arr.rows⟩
  else
    match arr.dtype, toType with
    | .int32, .uint8 =>
        (castNumericArrays safe numCastInt32ToUInt8 "UInt8" arr.rows).map
          fun rs => ⟨toType, rs⟩
    | .date32, .date64 => .ok ⟨toType, castDate32ToDate64 arr.rows⟩
    | .time32 .millisecond, .time64 .nanosecond =>
        .ok ⟨toType, castTime32MsToTime64Ns arr.rows⟩
    | .timestamp u _, .date32 =>
        .ok ⟨toType, castTimestampToDate32 u arr.rows⟩
    | _, _ => .error (.castError "Casting from source to target not supported")

/- ----- dictionary re-key (cast.rs lines 3340–3367) ----- -/

/-- The re-key half of `dictionary_cast` under the default safe options:
the keys are cast to the target index type's range (modelled from the
spec §4.4: checked integer cast, failures nullified in safe mode); if the
cast keys hold more nulls than the source keys, the whole cast fails with
`ComputeError("Could not convert {n} dictionary indexes from {from} to
{to}")` where `n` is exactly the difference of the null counts; otherwise
the cast keys are kept.  The independent value-array cast does not touch
the keys and is omitted. -/
def dictionaryCastRekey (lo hi : Int) (fromName toName : String)
    (keys : List (Option Int)) : Except ArrowError (List (Option Int)) :=
  let castKeys := unaryOpt (intRangeCast lo hi) keys
  if nullCount castKeys > nullCount keys then
    .error (.computeError
      ("Could not convert " ++ toString (nullCount castKeys - nullCount keys)
        ++ " dictionary indexes from " ++ fromName ++ " to " ++ toName))
  else .ok castKeys

/- ----- string → decimal (cast.rs lines 3224–3255) ----- -/

/-- `cast_string_to_decimal` (lines 3224–3255): a negative requested scale
or a scale above `T::MAX_SCALE` is rejected with an
`InvalidArgumentError` before any element is parsed; otherwise the rows
are parsed (`parse` abstracts `parse_string_to_decimal_native`), safe
mode nullifying failures and unsafe mode failing on the first one. -/
def castStringToDecimal (maxScale : Int) (scale : Int) (safe : Bool)
    (parse : String → Option Int) (rows : List (Option String)) :
    Except ArrowError (List (Option Int)) :=
  if scale < 0 then
    .error (.invalidArgumentError
      ("Cannot cast string to decimal with negative scale " ++ toString scale))
  else if scale > maxScale then
    .error (.invalidArgumentError
      ("Cannot cast string to decimal greater than maximum scale "
        ++ toString maxScale))
  else if safe then .ok (unaryOpt parse rows)
  else
    tryUnary
      (checkedToExcept parse fun s =>
        .castError ("Cannot cast string '" ++ s ++ "' to value of decimal type"))
      rows

/- ----- utf8 → boolean (cast.rs lines 3056–3089) ----- -/

/-- The strings accepted as `true` (after lowercasing and trimming). -/
def trueStrings : List String :=
  ["t", "tr", "tru", "true", "y", "ye", "yes", "on", "1"]

/-- The strings accepted as `false` (after lowercasing and trimming). -/
def falseStrings : List String :=
  ["f", "fa", "fal", "fals", "false", "n", "no", "of", "off", "0"]

/-- Rust's `str::to_ascii_lowercase`: lowercase exactly the ASCII capital
letters (`Char.toLower` does the same), working on the character list so
that the function evaluates by reduction. -/
def asciiLowercase (s : String) : String :=
  String.mk (s.data.map Char.toLower)

/-- Rust's `str::trim`: drop leading and trailing whitespace.  (Rust trims
Unicode whitespace, `Char.isWhitespace` the ASCII whitespace characters;
they agree on all ASCII-padded inputs.) -/
def trimString (s : String) : String :=
  String.mk
    (((s.data.dropWhile Char.isWhitespace).reverse.dropWhile
        Char.isWhitespace).reverse)

/-- `cast_utf8_to_boolean` per element (lines 3067–3084): ASCII-lowercase
and whitespace-trim the string, then match against the accepted spellings;
anything else is null in safe mode and a `CastError` naming the
(processed) value in unsafe mode. -/
def castUtf8ToBooleanElem (safe : Bool) (s : String) :
    Except ArrowError (Option Bool) :=
  let v := trimString (asciiLowercase s)
  if v ∈ trueStrings then .ok (some true)
  else if v ∈ falseStrings then .ok (some false)
  else if safe then .ok none
  else
    .error (.castError
      ("Cannot cast value '" ++ v ++ "' to value of Boolean type"))

/-- `cast_utf8_to_boolean` over the array: nulls stay null, the first
per-element error aborts the collection. -/
def castUtf8ToBoolean (safe : Bool) :
    List (Option String) → Except ArrowError (List (Option Bool))
  | [] => .ok []
  | none :: rest =>
      match castUtf8ToBoolean safe rest with
      | .ok tl => .ok (none :: tl)
      | .error e => .error e
  | some s :: rest =>
      match castUtf8ToBooleanElem safe s with
      | .error e => .error e
      | .ok b =>
          match castUtf8ToBoolean safe rest with
          | .ok tl => .ok (b :: tl)
          | .error e => .error e

/- ---------------------------------------------------------------- -/
/- Theorems                                                          -/
/- ---------------------------------------------------------------- -/

set_option linter.unreachableTactic false
set_option linter.unusedTactic false

/-- C1 (amended): for every pair of flat (non-list, non-fixed-size-list,
non-dictionary) logical types whose time units are valid (`Time32` with
second/millisecond, `Time64` with microsecond/nanosecond),
`can_cast_types(from, to)` returns `true` if and only if the
`cast_with_options` dispatcher does not reject the pair with a static
Unsupported-Cast error: on this domain the legality predicate and the
dispatcher accept exactly the same type pairs, in both safety modes and
for every array of type `from`. -/
theorem C1_legality_dispatch_agreement_flat
    (a b : DataType) (ha : isFlat a = true) (hb : isFlat b = true)
    (ua : unitsValid a = true) (ub : unitsValid b = true) :
    canCastTypes a b = dispatchSupported a b := by
  cases a <;> cases b <;>
    first
    | rfl
    | exact absurd ha Bool.false_ne_true
    | exact absurd hb Bool.false_ne_true
    | (rename_i x
       cases x <;>
         first
         | rfl
         | exact absurd ua Bool.false_ne_true
         | exact absurd ub Bool.false_ne_true)
    | (rename_i x y
       cases x <;> cases y <;>
         first
         | rfl
         | exact absurd ua Bool.false_ne_true
         | exact absurd ub Bool.false_ne_true)
    | (rename_i x y z
       cases x <;> cases y <;> cases z <;>
         first
         | rfl
         | exact absurd ua Bool.false_ne_true
         | exact absurd ub Bool.false_ne_true)
    | (rename_i x y z w
       cases x <;> cases y <;> cases z <;> cases w <;>
         first
         | rfl
         | exact absurd ua Bool.false_ne_true
         | exact absurd ub Bool.false_ne_true)

/-- Witness for `C1_legality_dispatch_agreement_flat` at the concrete pair
`(Int32, Time32(Second))`. -/
theorem C1_legality_dispatch_agreement_flat_witness :
    (isFlat .int32 = true ∧ isFlat (.time32 .second) = true
      ∧ unitsValid .int32 = true ∧ unitsValid (.time32 .second) = true)
    ∧ canCastTypes .int32 (.time32 .second)
        = dispatchSupported .int32 (.time32 .second) :=
  ⟨⟨rfl, rfl, rfl, rfl⟩,
    C1_legality_dispatch_agreement_flat .int32 (.time32 .second) rfl rfl rfl rfl⟩

/-- C1 counterexample: `can_cast_types(Int32, Time32(Nanosecond))` is
`true`, yet the dispatcher statically rejects the pair (the
`(Int32, Time32(..))` kernels exist only for the second and millisecond
units, so `cast_with_options` on any Int32 array with this target returns
the `"Casting from Int32 to Time32(ns) not supported"` error): the
legality predicate and the dispatcher do not accept the same pairs. -/
theorem C1_oracle_accepts_int32_time32ns_dispatch_rejects :
    canCastTypes .int32 (.time32 .nanosecond) = true
      ∧ dispatchSupported .int32 (.time32 .nanosecond) = false :=
  ⟨rfl, rfl⟩

theorem firstFailing_cons_none (f : α → Option β) (rest : List (Option α)) :
    firstFailing f (none :: rest) = firstFailing f rest := rfl

theorem firstFailing_cons_some (f : α → Option β) (a : α)
    (rest : List (Option α)) :
    firstFailing f (some a :: rest)
      = if (f a).isNone then some a else firstFailing f rest := by
  cases h : (f a).isNone <;> simp [firstFailing, List.find?_cons, h]

/-- `try_unary` succeeds with `unary_opt`'s output when no non-null
element fails the checked conversion. -/
theorem tryUnary_ok_of_firstFailing_none (f : α → Option β)
    (err : α → ArrowError) (rows : List (Option α))
    (h : firstFailing f rows = none) :
    tryUnary (checkedToExcept f err) rows = .ok (unaryOpt f rows) := by
  induction rows with
  | nil => rfl
  | cons r rest ih =>
      cases r with
      | none =>
          rw [firstFailing_cons_none] at h
          simp [tryUnary, unaryOpt, ih h]
      | some x =>
          rw [firstFailing_cons_some] at h
          rcases hx : f x with _ | y
          · simp [hx] at h
          · rw [hx] at h
            simp at h
            simp [tryUnary, checkedToExcept, hx, ih h, unaryOpt]

/-- `try_unary` reports the first failing non-null element. -/
theorem tryUnary_error_of_firstFailing_some (f : α → Option β)
    (err : α → ArrowError) (rows : List (Option α)) (x : α)
    (h : firstFailing f rows = some x) :
    tryUnary (checkedToExcept f err) rows = .error (err x) := by
  induction rows with
  | nil => simp [firstFailing] at h
  | cons r rest ih =>
      cases r with
      | none =>
          rw [firstFailing_cons_none] at h
          simp [tryUnary, ih h]
      | some a =>
          rw [firstFailing_cons_some] at h
          rcases ha : f a with _ | y
          · rw [ha] at h
            simp at h
            subst h
            simp [tryUnary, checkedToExcept, ha]
          · rw [ha] at h
            simp at h
            simp [tryUnary, checkedToExcept, ha, ih h]

/-- C2: for every numeric-to-numeric cast, `cast_numeric_arrays` under
`safe = true` converts in-range elements and turns each element on which
the checked per-element cast fails into a null at that position, while
under `safe = false` it returns an error on the first failing element,
naming the offending value and the target type.  The checked per-element
conversion (the external `num` crate's `cast`) is a parameter; for the
claim's Int32→UInt8 example it is the range check `numCastInt32ToUInt8`
(see the witness). -/
theorem C2_numeric_cast_safe_nulls_unsafe_errors
    (conv : Int → Option Int) (toName : String) (rows : List (Option Int)) :
    castNumericArrays true conv toName rows
        = .ok (rows.map fun r => r.bind conv)
    ∧ (firstFailing conv rows = none →
        castNumericArrays false conv toName rows
          = .ok (rows.map fun r => r.bind conv))
    ∧ (∀ v, firstFailing conv rows = some v →
        castNumericArrays false conv toName rows
          = .error (.castError
              ("Can't cast value " ++ toString v ++ " to type " ++ toName))) := by
  refine ⟨rfl, fun h => ?_, fun v h => ?_⟩
  · simpa [castNumericArrays, tryNumericCast, unaryOpt] using
      tryUnary_ok_of_firstFailing_none conv
        (fun v => .castError ("Can't cast value " ++ toString v ++ " to type " ++ toName))
        rows h
  · simpa [castNumericArrays, tryNumericCast] using
      tryUnary_error_of_firstFailing_some conv
        (fun v => .castError ("Can't cast value " ++ toString v ++ " to type " ++ toName))
        rows v h

/-- Witness for C2 at the claim's example: Int32 value 100000000 to
UInt8 — null under `safe = true`, an error naming the value and target
type under `safe = false`. -/
theorem C2_witness :
    castNumericArrays true numCastInt32ToUInt8 "UInt8"
        [some 100000000, some 7, none] = .ok [none, some 7, none]
    ∧ castNumericArrays false numCastInt32ToUInt8 "UInt8"
        [some 100000000, some 7, none]
        = .error (.castError "Can't cast value 100000000 to type UInt8") := by
  have h := C2_numeric_cast_safe_nulls_unsafe_errors numCastInt32ToUInt8 "UInt8"
    [some 100000000, some 7, none]
  exact ⟨h.1.trans rfl, (h.2.2 100000000 rfl).trans rfl⟩

/-- C3 (amended): in a decimal-to-decimal downscale, after rescaling each
non-null value is checked only for representability in the output's
native width (`from_decimal`): in safe mode such a failure nullifies that
row, and in unsafe mode the cast aborts with an error naming the
offending value.  In an upscale (`output_scale > input_scale`) the same
dichotomy applies to checked-multiply overflow in the native width.  The
rescaled result is *not* validated against the output precision `p` — the
per-element function is independent of it, so values exceeding the
precision are returned unchanged (see the counterexample theorem). -/
theorem C3_decimal_rescale_native_width_only
    (fromDec : Int → Option Int) (outTag : String) (inS : Int) (p : Nat)
    (outS : Int) (rows : List (Option Int))
    (hpow : 10 ^ (inS - outS).toNat ≤ I128_MAX) :
    ((convertToSmallerScaleDecimal fromDec outTag inS p outS true I128_MAX rows
        = .ok (rows.map fun r =>
            r.bind fun x =>
              fromDec (roundDivHalfAway ((10 : Int) ^ (inS - outS).toNat) x)))
    ∧ (firstFailing
          (fun x => fromDec (roundDivHalfAway ((10 : Int) ^ (inS - outS).toNat) x))
          rows = none →
        convertToSmallerScaleDecimal fromDec outTag inS p outS false I128_MAX rows
          = .ok (rows.map fun r =>
              r.bind fun x =>
                fromDec (roundDivHalfAway ((10 : Int) ^ (inS - outS).toNat) x)))
    ∧ (∀ x, firstFailing
          (fun x => fromDec (roundDivHalfAway ((10 : Int) ^ (inS - outS).toNat) x))
          rows = some x →
        convertToSmallerScaleDecimal fromDec outTag inS p outS false I128_MAX rows
          = .error (decimalOverflowError outTag p outS x)))
    ∧ (10 ^ (outS - inS).toNat ≤ I128_MAX →
        (convertToBiggerOrEqualScaleDecimal fromDec outTag inS p outS true
            I128_MIN I128_MAX rows
          = .ok (rows.map fun r =>
              r.bind fun x =>
                (fromDec x).bind
                  (mulChecked I128_MIN I128_MAX ((10 : Int) ^ (outS - inS).toNat))))
        ∧ (∀ x, firstFailing
              (fun x =>
                (fromDec x).bind
                  (mulChecked I128_MIN I128_MAX ((10 : Int) ^ (outS - inS).toNat)))
              rows = some x →
            convertToBiggerOrEqualScaleDecimal fromDec outTag inS p outS false
                I128_MIN I128_MAX rows
              = .error (decimalOverflowError outTag p outS x))) := by
  have hdiv : powCheckedTen (inS - outS).toNat I128_MAX
      = some ((10 : Int) ^ (inS - outS).toNat) := by
    simp [powCheckedTen, hpow]
  refine ⟨⟨?_, fun h => ?_, fun x h => ?_⟩, fun hpow2 => ⟨?_, fun x h => ?_⟩⟩
  · simp [convertToSmallerScaleDecimal, hdiv, unaryOpt]
  · simp only [convertToSmallerScaleDecimal, hdiv]
    simpa [unaryOpt] using
      tryUnary_ok_of_firstFailing_none
        (fun x => fromDec (roundDivHalfAway ((10 : Int) ^ (inS - outS).toNat) x))
        (decimalOverflowError outTag p outS) rows h
  · simp only [convertToSmallerScaleDecimal, hdiv]
    simpa using
      tryUnary_error_of_firstFailing_some
        (fun x => fromDec (roundDivHalfAway ((10 : Int) ^ (inS - outS).toNat) x))
        (decimalOverflowError outTag p outS) rows x h
  · have hmul : powCheckedTen (outS - inS).toNat I128_MAX
        = some ((10 : Int) ^ (outS - inS).toNat) := by
      simp [powCheckedTen, hpow2]
    simp [convertToBiggerOrEqualScaleDecimal, hmul, unaryOpt]
  · have hmul : powCheckedTen (outS - inS).toNat I128_MAX
        = some ((10 : Int) ^ (outS - inS).toNat) := by
      simp [powCheckedTen, hpow2]
    simp only [convertToBiggerOrEqualScaleDecimal, hmul]
    simpa using
      tryUnary_error_of_firstFailing_some
        (fun x =>
          (fromDec x).bind
            (mulChecked I128_MIN I128_MAX ((10 : Int) ^ (outS - inS).toNat)))
        (decimalOverflowError outTag p outS) rows x h

/-- Witness for the amended C3, the repo's own
`test_cast_decimal_to_decimal_round_with_error` instance: a
Decimal256(76, 4) → Decimal128(20, 3) downscale nullifies `i256::MAX`
in safe mode and errors on it (naming the value) in unsafe mode. -/
theorem C3_amended_witness :
    ((10 : Int) ^ ((4 : Int) - 3).toNat ≤ I128_MAX)
    ∧ convertToSmallerScaleDecimal fromDecimal256To128 "Decimal128" 4 20 3 true
        I128_MAX [some 1123454, some (2 ^ 255 - 1), none]
        = .ok [some 112345, none, none]
    ∧ convertToSmallerScaleDecimal fromDecimal256To128 "Decimal128" 4 20 3 false
        I128_MAX [some 1123454, some (2 ^ 255 - 1), none]
        = .error (decimalOverflowError "Decimal128" 20 3 (2 ^ 255 - 1))
    ∧ convertToBiggerOrEqualScaleDecimal some "Decimal128" 3 38 38 false
        I128_MIN I128_MAX [some (2 ^ 127 - 1)]
        = .error (decimalOverflowError "Decimal128" 38 38 (2 ^ 127 - 1)) := by
  have h := C3_decimal_rescale_native_width_only fromDecimal256To128 "Decimal128"
    4 20 3 [some 1123454, some (2 ^ 255 - 1), none] (by decide)
  have h2 := C3_decimal_rescale_native_width_only some "Decimal128"
    3 38 38 [some (2 ^ 127 - 1)] (by decide)
  refine ⟨by decide, h.1.1.trans ?_, (h.1.2.2 (2 ^ 255 - 1) ?_).trans rfl,
    ((h2.2 (by decide)).2 (2 ^ 127 - 1) ?_).trans rfl⟩
  · rfl
  · rfl
  · rfl

/-- C3 counterexample: casting Decimal128 value 123456 at scale 0 to
Decimal128(2, 2) succeeds in BOTH safety modes with the row holding
12345600, which violates the output precision 2 — the precision violation
is neither nullified (safe) nor an error (unsafe), refuting the claim
that the result is validated to fit the output precision.  (The repo's
own test `test_cast_decimal128_to_decimal128` asserts exactly this
behaviour.) -/
theorem C3_precision_violation_neither_nullified_nor_error :
    castDecimalToDecimalSameType128 0 2 2 true [some 123456] = .ok [some 12345600]
    ∧ castDecimalToDecimalSameType128 0 2 2 false [some 123456] = .ok [some 12345600]
    ∧ fitsDecimalPrecision 2 12345600 = false := by
  refine ⟨rfl, rfl, by decide⟩

theorem tmod_neg_left (a b : Int) : (-a).tmod b = -(a.tmod b) := by
  have h1 := Int.tdiv_add_tmod a b
  have h2 := Int.tdiv_add_tmod (-a) b
  rw [Int.neg_tdiv, mul_neg] at h2
  omega

theorem tdiv_add_half_of_nonneg (half x : Int) (hh : 0 < half) (hx : 0 ≤ x) :
    (x + half).tdiv (2 * half)
      = if half ≤ x.tmod (2 * half) then x.tdiv (2 * half) + 1
        else x.tdiv (2 * half) := by
  have hD : (0 : Int) < 2 * half := by omega
  have ht : x.tdiv (2 * half) = x / (2 * half) :=
    Int.tdiv_eq_ediv hx (le_of_lt hD)
  have hm : x.tmod (2 * half) = x % (2 * half) :=
    Int.tmod_eq_emod hx (le_of_lt hD)
  have ht2 : (x + half).tdiv (2 * half) = (x + half) / (2 * half) :=
    Int.tdiv_eq_ediv (by omega) (le_of_lt hD)
  have hsum := Int.ediv_add_emod' x (2 * half)
  have hr0 : 0 ≤ x % (2 * half) := Int.emod_nonneg x (by omega)
  have hrD : x % (2 * half) < 2 * half := Int.emod_lt_of_pos x hD
  have key : (x + half) / (2 * half)
      = (x % (2 * half) + half) / (2 * half) + x / (2 * half) := by
    have hx' : x + half = (x % (2 * half) + half) + (x / (2 * half)) * (2 * half) := by
      omega
    rw [hx', Int.add_mul_ediv_right _ _ (by omega)]
  rw [ht, ht2, hm, key]
  by_cases hc : half ≤ x % (2 * half)
  · have h1 : (x % (2 * half) + half) / (2 * half) = 1 := by
      have hx' : x % (2 * half) + half
          = (x % (2 * half) + half - 2 * half) + 1 * (2 * half) := by ring
      rw [hx', Int.add_mul_ediv_right _ _ (by omega),
        Int.ediv_eq_zero_of_lt (by omega) (by omega)]
      norm_num
    rw [if_pos hc, h1]
    omega
  · have h0 : (x % (2 * half) + half) / (2 * half) = 0 :=
      Int.ediv_eq_zero_of_lt (by omega) (by omega)
    rw [if_neg hc, h0]
    omega

theorem roundDivHalfAway_eq_half_away (half x : Int) (hh : 0 < half) :
    roundDivHalfAway (2 * half) x
      = if 0 ≤ x then (x + half).tdiv (2 * half)
        else (x - half).tdiv (2 * half) := by
  have hhalf : (2 * half).tdiv 2 = half := Int.mul_tdiv_cancel_left half (by norm_num)
  by_cases hx : 0 ≤ x
  · rw [if_pos hx]
    simp only [roundDivHalfAway, hhalf, if_pos hx]
    exact (tdiv_add_half_of_nonneg half x hh hx).symm
  · rw [if_neg hx]
    have hy : 0 ≤ -x := by omega
    have hpos := tdiv_add_half_of_nonneg half (-x) hh hy
    have hmod : x.tmod (2 * half) = -((-x).tmod (2 * half)) := by
      rw [← tmod_neg_left, neg_neg]
    have hdiv' : x.tdiv (2 * half) = -((-x).tdiv (2 * half)) := by
      rw [← Int.neg_tdiv, neg_neg]
    have hxs : x - half = -(-x + half) := by ring
    rw [hxs, Int.neg_tdiv, hpos]
    simp only [roundDivHalfAway, hhalf, if_neg hx]
    by_cases hc : half ≤ (-x).tmod (2 * half)
    · rw [if_pos hc, if_pos (by omega : x.tmod (2 * half) ≤ -half)]
      omega
    · rw [if_neg hc, if_neg (by omega : ¬ x.tmod (2 * half) ≤ -half)]
      omega

/-- C4: in a decimal-to-decimal cast with `output_scale < input_scale`,
every non-null value `x` is divided by `div = 10^(input_scale −
output_scale)` through the rounding closure; with `d` the truncated
quotient, `r` the truncated remainder and `half = div / 2` (exact, since
`div` is even), the result is `d + 1` when `x ≥ 0 ∧ half ≤ r`, `d − 1`
when `x < 0 ∧ r ≤ −half`, and `d` otherwise — which is exactly
rounding half away from zero (`(x ± half).tdiv div`), never plain
truncation (15/10 rounds to 2, not 1). -/
theorem C4_smaller_scale_rounds_half_away_from_zero
    (inS outS : Int) (hlt : outS < inS) (p : Nat)
    (hpow : 10 ^ (inS - outS).toNat ≤ I128_MAX)
    (rows : List (Option Int)) :
    (convertToSmallerScaleDecimal some "Decimal128" inS p outS true I128_MAX rows
        = .ok (rows.map (Option.map
            (roundDivHalfAway ((10 : Int) ^ (inS - outS).toNat)))))
    ∧ (∀ x : Int,
        roundDivHalfAway ((10 : Int) ^ (inS - outS).toNat) x
          = if 0 ≤ x ∧ ((10 : Int) ^ (inS - outS).toNat).tdiv 2
                ≤ x.tmod ((10 : Int) ^ (inS - outS).toNat)
            then x.tdiv ((10 : Int) ^ (inS - outS).toNat) + 1
            else if x < 0 ∧ x.tmod ((10 : Int) ^ (inS - outS).toNat)
                ≤ -(((10 : Int) ^ (inS - outS).toNat).tdiv 2)
              then x.tdiv ((10 : Int) ^ (inS - outS).toNat) - 1
              else x.tdiv ((10 : Int) ^ (inS - outS).toNat))
    ∧ 2 * (((10 : Int) ^ (inS - outS).toNat).tdiv 2)
        = (10 : Int) ^ (inS - outS).toNat
    ∧ (∀ x : Int,
        roundDivHalfAway ((10 : Int) ^ (inS - outS).toNat) x
          = if 0 ≤ x
            then (x + ((10 : Int) ^ (inS - outS).toNat).tdiv 2).tdiv
                ((10 : Int) ^ (inS - outS).toNat)
            else (x - ((10 : Int) ^ (inS - outS).toNat).tdiv 2).tdiv
                ((10 : Int) ^ (inS - outS).toNat))
    ∧ roundDivHalfAway 10 15 ≠ Int.tdiv 15 10 := by
  obtain ⟨m, hm⟩ : ∃ m, (inS - outS).toNat = m + 1 :=
    ⟨(inS - outS).toNat - 1, by omega⟩
  have hsplit : (10 : Int) ^ (inS - outS).toNat = 2 * (5 * 10 ^ m) := by
    rw [hm, pow_succ]
    ring
  have hhalfpos : (0 : Int) < 5 * 10 ^ m := by positivity
  have hhalf : ((10 : Int) ^ (inS - outS).toNat).tdiv 2 = 5 * 10 ^ m := by
    rw [hsplit]
    exact Int.mul_tdiv_cancel_left _ (by norm_num)
  refine ⟨?_, fun x => ?_, ?_, fun x => ?_, by decide⟩
  · have hdiv : powCheckedTen (inS - outS).toNat I128_MAX
        = some ((10 : Int) ^ (inS - outS).toNat) := by
      simp [powCheckedTen, hpow]
    simp only [convertToSmallerScaleDecimal, hdiv, unaryOpt, if_true]
    refine congrArg Except.ok (List.map_congr_left fun r _ => ?_)
    cases r <;> rfl
  · simp only [roundDivHalfAway]
    split_ifs <;> omega
  · rw [hhalf, ← hsplit]
  · rw [hhalf, hsplit]
    exact roundDivHalfAway_eq_half_away (5 * 10 ^ m) x hhalfpos

/-- Witness for C4 at the repo's `test_cast_decimal_to_decimal_round`
instance: scale 4 → 3 rounds 1123454 to 112345, 2123456 to 212346,
−3123453 to −312345 and −3123456 to −312346. -/
theorem C4_witness :
    ((3 : Int) < 4 ∧ 10 ^ ((4 : Int) - 3).toNat ≤ I128_MAX)
    ∧ convertToSmallerScaleDecimal some "Decimal128" 4 20 3 true I128_MAX
        [some 1123454, some 2123456, some (-3123453), some (-3123456), none]
        = .ok [some 112345, some 212346, some (-312345), some (-312346), none]
    ∧ roundDivHalfAway ((10 : Int) ^ ((4 : Int) - 3).toNat) (-3123456) = -312346 := by
  have h := C4_smaller_scale_rounds_half_away_from_zero 4 3 (by decide) 20 (by decide)
    [some 1123454, some 2123456, some (-3123453), some (-3123456), none]
  refine ⟨⟨by decide, by decide⟩, h.1.trans rfl, ?_⟩
  rw [h.2.2.2.1 (-3123456)]
  decide

/-- C5 (code bug): the claim says a non-null Time32(Millisecond) element
`v` cast to Time64(Nanosecond) yields `v * 1_000_000` (the
millisecond-to-nanosecond unit ratio); the code's arm multiplies by the
constant `MICROSECONDS / NANOSECONDS = 1_000_000 / 1_000_000_000`, which
is 0 in integer division, so every element is mapped to 0 — e.g. value 1
yields 0, not 1_000_000.  (The sibling arms use correct ratios such as
`MICROSECONDS / MILLISECONDS`; per spec §4.5 the multiplier here should
be `NANOSECONDS / MILLISECONDS`.) -/
theorem C5_time32ms_to_time64ns_multiplier_is_zero :
    MICROSECONDS.tdiv NANOSECONDS = 0
    ∧ (∀ x : Int, castTime32MsToTime64NsElem x = 0)
    ∧ castTime32MsToTime64Ns [some 1, none, some 86399999]
        = [some 0, none, some 0]
    ∧ castTime32MsToTime64NsElem 1 ≠ 1 * 1000000 := by
  have hz : MICROSECONDS.tdiv NANOSECONDS = 0 := by decide
  refine ⟨hz, fun x => ?_, by decide, by decide⟩
  simp [castTime32MsToTime64NsElem, hz]

/-- C7: casting a Date32 array with element 10000 to Date64 yields
864000000000 (multiplication by the milliseconds-per-day constant
86_400_000), and casting a Timestamp(Millisecond) array with element
864000000005 to Date32 yields 10000 (truncating division by the
milliseconds-per-day factor). -/
theorem C7_date32_date64_timestamp_examples :
    castDate32ToDate64 [some 10000] = [some 864000000000]
    ∧ castTimestampToDate32 .millisecond [some 864000000005] = [some 10000]
    ∧ (∀ x : Int, castDate32ToDate64Elem x = x * 86400000)
    ∧ (∀ x : Int, castTimestampToDate32 .millisecond [some x]
        = [some (x.tdiv 86400000)]) := by
  refine ⟨by decide, by decide, fun x => rfl, fun x => ?_⟩
  show [some (x.tdiv (MILLISECONDS * SECONDS_IN_DAY))] = [some (x.tdiv 86400000)]
  norm_num [MILLISECONDS, SECONDS_IN_DAY]

/-- C8: for every array `a`, `cast(a, type_of(a))` succeeds and returns
an array with the same logical type, length, validity and element values
as `a` — the dispatcher's tier-0 shallow clone fires before any routing,
so no per-value processing happens and no per-value failure is possible
in either safety mode. -/
theorem C8_cast_to_same_type_is_identity (arr : MArray) (safe : Bool) :
    castWithOptionsM arr arr.dtype safe = .ok arr := by
  simp [castWithOptionsM]

/-- C6: when re-keying a dictionary under the default safe mode, if
casting the key array to the new index type produces more nulls than the
source keys had, the whole cast always fails (it never keeps the
nullified keys) with a `ComputeError` reporting exactly the number of
unrepresentable indices: the cast-key null count minus the source-key
null count. -/
theorem C6_dictionary_rekey_added_nulls_always_error
    (lo hi : Int) (fromName toName : String) (keys : List (Option Int))
    (h : nullCount keys < nullCount (unaryOpt (intRangeCast lo hi) keys)) :
    dictionaryCastRekey lo hi fromName toName keys
      = .error (.computeError
          ("Could not convert "
            ++ toString (nullCount (unaryOpt (intRangeCast lo hi) keys)
                  - nullCount keys)
            ++ " dictionary indexes from " ++ fromName ++ " to " ++ toName)) := by
  simp [dictionaryCastRekey, h]

/-- Witness for C6 at the claim's example: 200 distinct keys 0..200
re-keyed to an Int8 index (range −128..127) add 72 nulls, and the error
reports exactly 72. -/
theorem C6_witness :
    nullCount ((List.range 200).map fun n => some (n : Int))
        < nullCount (unaryOpt (intRangeCast (-128) 127)
            ((List.range 200).map fun n => some (n : Int)))
    ∧ dictionaryCastRekey (-128) 127 "Int64" "Int8"
        ((List.range 200).map fun n => some (n : Int))
        = .error (.computeError
            "Could not convert 72 dictionary indexes from Int64 to Int8") := by
  have h := C6_dictionary_rekey_added_nulls_always_error (-128) 127 "Int64" "Int8"
    ((List.range 200).map fun n => some (n : Int)) (by decide)
  exact ⟨by decide, h.trans (by rfl)⟩

/-- C9: a string-to-decimal cast request with a negative target scale, or
a target scale exceeding the decimal type's maximum, is rejected with an
`InvalidArgumentError` before any element is processed — the result is
identical under `safe = true` and `safe = false`, does not depend on the
rows or on the element parser, and is never an output array. -/
theorem C9_string_to_decimal_invalid_scale_always_rejected
    (maxScale scale : Int) (safe : Bool)
    (parse parse' : String → Option Int) (rows rows' : List (Option String))
    (h : scale < 0 ∨ maxScale < scale) :
    (∀ out, castStringToDecimal maxScale scale safe parse rows ≠ .ok out)
    ∧ castStringToDecimal maxScale scale safe parse rows
        = castStringToDecimal maxScale scale (!safe) parse' rows' := by
  by_cases hneg : scale < 0
  · constructor
    · intro out
      simp [castStringToDecimal, hneg]
    · simp [castStringToDecimal, hneg]
  · have hmax : maxScale < scale := by tauto
    constructor
    · intro out
      simp [castStringToDecimal, hneg, hmax]
    · simp [castStringToDecimal, hneg, hmax]

/-- Witness for C9 at scale −1 against Decimal128's maximum scale 38. -/
theorem C9_witness :
    ((-1 : Int) < 0 ∨ (38 : Int) < -1)
    ∧ (∀ out, castStringToDecimal 38 (-1) true (fun _ => some 0) [some "1"]
        ≠ .ok out)
    ∧ castStringToDecimal 38 (-1) true (fun _ => some 0) [some "1"]
        = castStringToDecimal 38 (-1) false (fun _ => none) [] := by
  have h := C9_string_to_decimal_invalid_scale_always_rejected 38 (-1) true
    (fun _ => some 0) (fun _ => none) [some "1"] [] (Or.inl (by decide))
  exact ⟨Or.inl (by decide), h.1, h.2⟩

/-- The two accepted spelling sets are disjoint. -/
theorem trueStrings_falseStrings_disjoint (v : String)
    (h : v ∈ trueStrings) : v ∉ falseStrings := by
  fin_cases h <;> decide

/-- C10: casting Utf8 to Boolean, each non-null string is
ASCII-lowercased and whitespace-trimmed; the result is `true` exactly for
the strings `t/tr/tru/true/y/ye/yes/on/1`, `false` exactly for
`f/fa/fal/fals/false/n/no/of/off/0`; any other non-null string yields a
null when `safe = true` and a `CastError` naming the (processed) value
when `safe = false`; null inputs stay null. -/
theorem C10_utf8_to_boolean_semantics (safe : Bool) (s : String)
    (rest : List (Option String)) :
    (castUtf8ToBooleanElem safe s = .ok (some true)
        ↔ trimString (asciiLowercase s) ∈ trueStrings)
    ∧ (castUtf8ToBooleanElem safe s = .ok (some false)
        ↔ trimString (asciiLowercase s) ∈ falseStrings)
    ∧ (trimString (asciiLowercase s) ∉ trueStrings →
        trimString (asciiLowercase s) ∉ falseStrings →
        castUtf8ToBooleanElem safe s
          = if safe then .ok none
            else .error (.castError
                ("Cannot cast value '" ++ trimString (asciiLowercase s)
                  ++ "' to value of Boolean type")))
    ∧ castUtf8ToBoolean safe (none :: rest)
        = (castUtf8ToBoolean safe rest).map (none :: ·) := by
  refine ⟨?_, ?_, fun h1 h2 => ?_, ?_⟩
  · by_cases h1 : trimString (asciiLowercase s) ∈ trueStrings
    · simp [castUtf8ToBooleanElem, h1]
    · by_cases h2 : trimString (asciiLowercase s) ∈ falseStrings
      · simp [castUtf8ToBooleanElem, h1, h2]
      · cases safe <;> simp [castUtf8ToBooleanElem, h1, h2]
  · by_cases h1 : trimString (asciiLowercase s) ∈ trueStrings
    · simp [castUtf8ToBooleanElem, h1,
        trueStrings_falseStrings_disjoint _ h1]
    · by_cases h2 : trimString (asciiLowercase s) ∈ falseStrings
      · simp [castUtf8ToBooleanElem, h1, h2]
      · cases safe <;> simp [castUtf8ToBooleanElem, h1, h2]
  · cases safe <;> simp [castUtf8ToBooleanElem, h1, h2]
  · cases h : castUtf8ToBoolean safe rest <;>
      simp [castUtf8ToBoolean, h, Except.map]

/-- Witness for C10: `" tRuE "` is accepted as true, `"of "` as false,
`"maybe"` nullifies in safe mode and errors in unsafe mode. -/
theorem C10_witness :
    castUtf8ToBooleanElem true " tRuE " = .ok (some true)
    ∧ castUtf8ToBooleanElem false "of " = .ok (some false)
    ∧ castUtf8ToBooleanElem true "maybe" = .ok none
    ∧ castUtf8ToBooleanElem false " MAYBE" = .error (.castError
        "Cannot cast value 'maybe' to value of Boolean type") := by
  refine ⟨(C10_utf8_to_boolean_semantics true " tRuE " []).1.mpr (by decide),
    (C10_utf8_to_boolean_semantics false "of " []).2.1.mpr (by decide),
    ?_, ?_⟩
  · have h := (C10_utf8_to_boolean_semantics true "maybe" []).2.2.1
      (by decide) (by decide)
    simpa using h
  · have h := (C10_utf8_to_boolean_semantics false " MAYBE" []).2.2.1
      (by decide) (by decide)
    simpa using h

end ArrowCast
